import Mathlib

/-!
Verification of the gubernator cluster-membership synchronization engine
(`src/kubernetes.go`, package `gubernator`) and its metrics collaborator
(package `metrics`), as a shallow embedding in Lean 4.

Conventions of the embedding:
* The informer's store snapshot (`e.informer.GetStore().List()`) is a
  `List StoreObj` in the order `List()` happens to present the entries;
  the underlying Go map has no defined iteration order, so distinct
  permutations of the same snapshot are distinct possible presentations.
* A Go function that can panic is embedded returning `Option`; `none`
  means the function panicked before returning.
* The consumer callback `e.conf.OnUpdate(peers)` is embedded by
  returning the argument it is invoked with rather than storing a
  function in the config structure.
-/

namespace Gubernator

/-- `PeerInfo` from the gubernator package: a synthesized `host:port`
address string plus the owner flag. -/
structure PeerInfo where
  Address : String
  IsOwner : Bool
  deriving DecidableEq, Repr

/-- `v1.EndpointPort`: a per-record port entry carried inside an
endpoint subset.  `updatePeers` never reads this field. -/
structure EndpointPort where
  Port : Nat
  PortName : String
  deriving DecidableEq, Repr

/-- `v1.EndpointAddress`: one address of an endpoint subset; only the
`IP` field is read by `updatePeers`. -/
structure EndpointAddress where
  IP : String
  deriving DecidableEq, Repr

/-- `v1.EndpointSubset`: a group of addresses together with the record's
own ports (the ports are ignored by `updatePeers`). -/
structure EndpointSubset where
  Addresses : List EndpointAddress
  Ports : List EndpointPort
  deriving DecidableEq, Repr

/-- `v1.Endpoints`: one membership record.  `MetaName` stands for the
record's identity key (ObjectMeta name); `updatePeers` never reads it. -/
structure Endpoints where
  MetaName : String
  Subsets : List EndpointSubset
  deriving DecidableEq, Repr

/-- One object held by the informer's store.  `other s` is a record that
is not of type `*v1.Endpoints` (the type assertion at
`src/kubernetes.go:139` fails on it, with `s` the reflected type name). -/
inductive StoreObj where
  | endpoints (ep : Endpoints)
  | other (typeName : String)
  deriving DecidableEq, Repr

/-- `K8sPoolConfig` from `src/kubernetes.go:47-54`.  The `OnUpdate`
callback field is modelled by the return values of the functions below
instead of a function field. -/
structure K8sPoolConfig where
  PoolNamespace : String
  Selector : String
  PodIP : String
  PodPort : String
  Enabled : Bool
  deriving DecidableEq, Repr

/-- The peers synthesized from one well-formed `Endpoints` record
(`src/kubernetes.go:144-154`): for each subset and each address,
`PeerInfo{Address: fmt.Sprintf("%s:%s", addr.IP, e.conf.PodPort)}` with
`IsOwner` set exactly when `addr.IP == e.conf.PodIP`.  The subset's own
`Ports` field is never read. -/
def peersOfEndpoints (conf : K8sPoolConfig) (ep : Endpoints) : List PeerInfo :=
  ep.Subsets.flatMap fun s =>
    s.Addresses.map fun addr =>
      { Address := addr.IP ++ ":" ++ conf.PodPort,
        IsOwner := addr.IP == conf.PodIP }

/-- `K8sPool.updatePeers` (`src/kubernetes.go:135-157`), embedded as the
argument passed to the single `e.conf.OnUpdate(peers)` call at line 156,
or `none` if the loop panics first.  The loop type-asserts each store
object to `*v1.Endpoints`; on failure it logs but does NOT skip the
record (there is no `continue`), so the following
`for _, s := range endpoint.Subsets` dereferences the nil `endpoint`
pointer and panics: embedded as `none`. -/
def updatePeers (conf : K8sPoolConfig) : List StoreObj → Option (List PeerInfo)
  | [] => some []
  | StoreObj.endpoints ep :: rest =>
      (updatePeers conf rest).map (fun l => peersOfEndpoints conf ep ++ l)
  | StoreObj.other _ :: _ => none

/-- Total build over well-formed store objects; on a malformed object it
yields `[]` (used only under a well-formedness hypothesis relating it to
`updatePeers`). -/
def peersOfObj (conf : K8sPoolConfig) : StoreObj → List PeerInfo
  | StoreObj.endpoints ep => peersOfEndpoints conf ep
  | StoreObj.other _ => []

/-- The three informer event kinds offered by
`cache.ResourceEventHandlerFuncs`. -/
inductive EventKind where
  | add
  | update
  | delete
  deriving DecidableEq, Repr

/-- One feed event as seen by the handler registered at
`src/kubernetes.go:96-123`: its kind, plus whether
`cache.MetaNamespaceKeyFunc` succeeds on the event's object (`keyOk`). -/
structure Event where
  kind : EventKind
  keyOk : Bool
  deriving DecidableEq, Repr

/-- Whether the handler of `src/kubernetes.go:96-123` reaches
`e.updatePeers()` for a given event.  `AddFunc` is commented out, so an
add event does nothing; `UpdateFunc`/`DeleteFunc` first compute the
namespace key and return early (no recomputation) when that fails. -/
def triggersUpdatePeers : Event → Bool
  | ⟨EventKind.add, _⟩ => false
  | ⟨EventKind.update, keyOk⟩ => keyOk
  | ⟨EventKind.delete, keyOk⟩ => keyOk

/-- The list of arguments passed to `OnUpdate` as a result of handling a
single feed event against the given store snapshot: empty when the event
does not trigger recomputation or when `updatePeers` panics, and a
one-element list otherwise (the handler contains exactly one
`e.conf.OnUpdate` call site, executed unconditionally at the end of
`updatePeers`). -/
def onUpdateCalls (conf : K8sPoolConfig) (store : List StoreObj) (e : Event) :
    List (List PeerInfo) :=
  if triggersUpdatePeers e then
    match updatePeers conf store with
    | some peers => [peers]
    | none => []
  else []

/-- Go semantics of `close(ch)` on an unbuffered signalling channel,
tracked as a flag: closing an already-closed channel panics
("close of closed channel"), embedded as `none`. -/
def closeChan : Bool → Option Bool
  | true => none
  | false => some true

/-- The engine state visible to the lifecycle model: the events the
informer has yet to deliver to the handler, whether `e.done` has been
closed, whether the informer goroutine (`go e.informer.Run(e.done)`,
`src/kubernetes.go:125`) has exited, and how many `OnUpdate` invocations
have happened so far. -/
structure EngineState where
  pending : List Event
  doneClosed : Bool
  workerExited : Bool
  callbackCount : Nat
  deriving DecidableEq, Repr

/-- `K8sPool.Close` (`src/kubernetes.go:159-161`).  Its entire body is
`close(e.done)`: it flips `doneClosed` and touches nothing else — in
particular it performs no wait on the worker (the pool's `wg` and
`cancelCtx` fields are never used).  `none` means the call panicked
(double close). -/
def closePool (s : EngineState) : Option EngineState :=
  (closeChan s.doneClosed).map fun b => { s with doneClosed := b }

/-- One step of the informer worker goroutine.  `deliver`: while the
worker has not exited it pops the next pending event and runs the
registered handler, which invokes `OnUpdate` exactly when the event
triggers `updatePeers` (the store is assumed free of malformed records
here; an empty store still produces a callback).  Delivery is possible
even when `done` is already closed, because the worker only observes the
stop channel between deliveries and nothing in `Close` waits for it.
`observeStop`: once `done` is closed the worker may notice and exit. -/
inductive WorkerStep : EngineState → EngineState → Prop where
  | deliver (s : EngineState) (e : Event) (rest : List Event)
      (hrun : s.workerExited = false) (hq : s.pending = e :: rest) :
      WorkerStep s
        { s with
          pending := rest,
          callbackCount := s.callbackCount + (if triggersUpdatePeers e then 1 else 0) }
  | observeStop (s : EngineState)
      (hrun : s.workerExited = false) (hdone : s.doneClosed = true) :
      WorkerStep s { s with workerExited := true }

/-- The observable actions `NewK8sPool` may take, in program order:
`rest.InClusterConfig()` (the attempt to reach the control plane),
`kubernetes.NewForConfig(config)`, and `start()` (creating and running
the informer). -/
inductive InitAction where
  | inClusterConfig
  | newForConfig
  | startInformer
  deriving DecidableEq, Repr

/-- Outcomes of the external cluster environment that `NewK8sPool`
consults, abstracting the results of the three fallible stages. -/
structure ClusterEnv where
  inClusterConfigOk : Bool
  newForConfigOk : Bool
  cachesSync : Bool
  deriving DecidableEq, Repr

/-- Result of `NewK8sPool`. -/
inductive NewPoolResult where
  | initError (stage : String)
  | syncTimeout
  | ok
  deriving DecidableEq, Repr

/-- `NewK8sPool` (`src/kubernetes.go:56-76`) followed by `start()`
(lines 78-133), as (result, actions attempted in order).  The body
consults only the environment outcomes: no field of `conf` — in
particular not `conf.Enabled` — is ever read on the construction path. -/
def newK8sPool (conf : K8sPoolConfig) (env : ClusterEnv) :
    NewPoolResult × List InitAction :=
  if !env.inClusterConfigOk then
    (NewPoolResult.initError ("during InClusterConfig()"),
      [InitAction.inClusterConfig])
  else if !env.newForConfigOk then
    (NewPoolResult.initError ("during NewForConfig()"),
      [InitAction.inClusterConfig, InitAction.newForConfig])
  else if !env.cachesSync then
    (NewPoolResult.syncTimeout,
      [InitAction.inClusterConfig, InitAction.newForConfig,
        InitAction.startInformer])
  else
    (NewPoolResult.ok,
      [InitAction.inClusterConfig, InitAction.newForConfig,
        InitAction.startInformer])

/-- Semantics of `cache.WaitForCacheSync(stopCh, hasSynced)` (the
client-go dependency called at `src/kubernetes.go:127` with
`stopCh = e.done`): it polls `hasSynced` until it reports true or until
the stop channel is closed, whichever is observed first; it carries no
wall-clock timeout of its own.  Inputs are the instants (if any) at
which the informer first reports synced and at which `e.done` is closed;
the result is `some true` (synced), `some false` (stop closed first), or
`none` (neither ever happens: the call never returns). -/
def waitForCacheSync : Option Nat → Option Nat → Option Bool
  | some s, some t => if s ≤ t then some true else some false
  | some _, none => some true
  | none, some _ => some false
  | none, none => none

/-- How `start()` (`src/kubernetes.go:125-132`) finishes its initial
synchronization: `ok` when `WaitForCacheSync` returns true,
`syncTimeoutError` (the `"timed out waiting for caches to sync"` error)
when it returns false, and `blocksForever` when it never returns. -/
inductive StartOutcome where
  | ok
  | syncTimeoutError
  | blocksForever
  deriving DecidableEq, Repr

/-- Outcome of `start()`'s synchronization wait as a function of the
sync/stop instants. -/
def startSyncOutcome (syncedAt stopClosedAt : Option Nat) : StartOutcome :=
  match waitForCacheSync syncedAt stopClosedAt with
  | some true => StartOutcome.ok
  | some false => StartOutcome.syncTimeoutError
  | none => StartOutcome.blocksForever

end Gubernator

namespace Metrics

/-- `RequestStats` of the metrics package: per-RPC method identity,
duration (int64 nanoseconds), failure count and call count. -/
structure RequestStats where
  Method : String
  Duration : Int
  Failed : Int
  Called : Int
  deriving DecidableEq, Repr

/-- The per-interval aggregation map `methods` of `StatsdMetrics.Start`
(a Go `map[string]RequestStats`), as a finite partial function. -/
def StatMap := String → Option RequestStats

/-- The empty aggregation map (`make(map[string]RequestStats)`). -/
def StatMap.empty : StatMap := fun _ => none

/-- The `case stat := <-sd.reqChan` branch of the aggregation loop
(`src/unnamed/part_000`, `StatsdMetrics.Start`): when the method already
has an entry, the entry is copied into `item`, the copy's `Failed`,
`Called` and `Duration` are updated, and the branch returns without ever
storing `item` back — the map is left unchanged (the dead `updated`
binding below mirrors that discarded copy).  When the method is absent,
the stat is stored with `Called` set to 1. -/
def handleStat (methods : StatMap) (stat : RequestStats) : StatMap :=
  match methods stat.Method with
  | some item =>
      let _updated : RequestStats :=
        { item with
          Failed := item.Failed + stat.Failed,
          Called := item.Called + 1,
          Duration :=
            if item.Duration > stat.Duration then stat.Duration
            else item.Duration }
      methods
  | none =>
      fun k =>
        if k = stat.Method then some { stat with Called := 1 } else methods k

/-- What the tick branch emits to the statsd client for one method:
`Gauge(duration)`, `Inc(total, Called)`, `Inc(failed, Failed)`. -/
structure Emission where
  gaugeDuration : Int
  incTotal : Int
  incFailed : Int
  deriving DecidableEq, Repr

/-- The counters emitted at the next tick for a given method, as
determined by the aggregation map at tick time (`none` when the method
has no entry and nothing is emitted for it). -/
def emitForMethod (methods : StatMap) (method : String) : Option Emission :=
  (methods method).map fun v =>
    { gaugeDuration := v.Duration, incTotal := v.Called, incFailed := v.Failed }

end Metrics

namespace Gubernator

/-- Example configuration used by the concrete instances below:
own address 10.0.0.2, configured port 8080. -/
def cfgEx : K8sPoolConfig :=
  { PoolNamespace := "default", Selector := "app=gubernator",
    PodIP := "10.0.0.2", PodPort := "8080", Enabled := true }

/-- Record with key A holding the single address 10.0.0.1. -/
def epA : Endpoints :=
  { MetaName := "A", Subsets := [{ Addresses := [{ IP := "10.0.0.1" }], Ports := [] }] }

/-- Record with key B holding the single address 10.0.0.2. -/
def epB : Endpoints :=
  { MetaName := "B", Subsets := [{ Addresses := [{ IP := "10.0.0.2" }], Ports := [] }] }

/-- On a store whose records are all well-formed, `updatePeers` reaches
the callback and passes it the concatenation, in store order, of the
peers synthesized from each record. -/
theorem updatePeers_eq_flatMap (conf : K8sPoolConfig) :
    ∀ store : List StoreObj,
      (∀ o ∈ store, ∃ ep, o = StoreObj.endpoints ep) →
      updatePeers conf store = some (store.flatMap (peersOfObj conf))
  | [], _ => rfl
  | StoreObj.endpoints ep :: rest, h => by
      have ih := updatePeers_eq_flatMap conf rest
        (fun o ho => h o (List.mem_cons_of_mem _ ho))
      simp [updatePeers, ih, peersOfObj]
  | StoreObj.other t :: rest, h => by
      obtain ⟨ep, hep⟩ := h (StoreObj.other t) (List.mem_cons_self _ _)
      exact absurd hep (by simp)

/-- The concrete two-record store with keys A and B, in the
presentation order A then B. -/
def storeAB : List StoreObj := [StoreObj.endpoints epA, StoreObj.endpoints epB]

/-- Every record of `storeAB` is well-formed. -/
theorem storeAB_wf : ∀ o ∈ storeAB, ∃ ep, o = StoreObj.endpoints ep := by
  intro o ho
  rcases List.mem_cons.1 ho with rfl | ho
  · exact ⟨epA, rfl⟩
  rcases List.mem_cons.1 ho with rfl | ho
  · exact ⟨epB, rfl⟩
  · cases ho

/-- C1: on a qualifying event the engine ignores the event payload and
rebuilds the whole peer list from the full store snapshot: the callback
receives the complete concatenation over the snapshot (never a delta),
in which every address of every well-formed record contributes the peer
whose address is the record address's host joined with the single
configured port (`addr.IP ++ ":" ++ conf.PodPort`, so any per-record
port is ignored — last conjunct), and whose owner flag is
`addr.IP == conf.PodIP`, i.e. true exactly when the host equals the
configured own address. -/
theorem updatePeers_rebuilds_complete_list (conf : K8sPoolConfig)
    (store : List StoreObj)
    (hwf : ∀ o ∈ store, ∃ ep, o = StoreObj.endpoints ep) :
    ∃ L, updatePeers conf store = some L ∧
      L = store.flatMap (peersOfObj conf) ∧
      (∀ ep, StoreObj.endpoints ep ∈ store →
        ∀ sub ∈ ep.Subsets, ∀ addr ∈ sub.Addresses,
          ({ Address := addr.IP ++ ":" ++ conf.PodPort,
             IsOwner := addr.IP == conf.PodIP } : PeerInfo) ∈ L) ∧
      (∀ ep ports,
        peersOfEndpoints conf
          { ep with Subsets := ep.Subsets.map fun sub => { sub with Ports := ports } } =
          peersOfEndpoints conf ep) := by
  refine ⟨_, updatePeers_eq_flatMap conf store hwf, rfl, ?_, ?_⟩
  · intro ep hep sub hsub addr haddr
    refine List.mem_flatMap.2 ⟨StoreObj.endpoints ep, hep, ?_⟩
    simp only [peersOfObj, peersOfEndpoints]
    exact List.mem_flatMap.2 ⟨sub, hsub, List.mem_map_of_mem _ haddr⟩
  · intro ep ports
    simp [peersOfEndpoints, List.flatMap_map, Function.comp]

/-- Witness for C1 at the concrete store `storeAB` and configuration
`cfgEx`. -/
theorem updatePeers_rebuilds_complete_list_witness :
    (∀ o ∈ storeAB, ∃ ep, o = StoreObj.endpoints ep) ∧
    (∃ L, updatePeers cfgEx storeAB = some L ∧
      L = storeAB.flatMap (peersOfObj cfgEx) ∧
      (∀ ep, StoreObj.endpoints ep ∈ storeAB →
        ∀ sub ∈ ep.Subsets, ∀ addr ∈ sub.Addresses,
          ({ Address := addr.IP ++ ":" ++ cfgEx.PodPort,
             IsOwner := addr.IP == cfgEx.PodIP } : PeerInfo) ∈ L) ∧
      (∀ ep ports,
        peersOfEndpoints cfgEx
          { ep with Subsets := ep.Subsets.map fun sub => { sub with Ports := ports } } =
          peersOfEndpoints cfgEx ep)) :=
  ⟨storeAB_wf, updatePeers_rebuilds_complete_list cfgEx storeAB storeAB_wf⟩

/-- C2 counterexample: it is not the case that a callback happens if and
only if the event kind is update or delete.  The handlers for update and
delete first run `cache.MetaNamespaceKeyFunc` and return early without
calling `e.updatePeers()` when it errors (`src/kubernetes.go:108-111`
and 117-120), so an update event whose key extraction fails triggers no
recomputation. -/
theorem callback_iff_update_or_delete_refuted :
    ¬ ∀ e : Event, triggersUpdatePeers e = true ↔
      (e.kind = EventKind.update ∨ e.kind = EventKind.delete) := by
  intro h
  have hc := (h { kind := EventKind.update, keyOk := false }).mpr (Or.inl rfl)
  simp [triggersUpdatePeers] at hc

/-- C2 as amended: a recomputation and callback invocation happens if
and only if the event kind is update or delete AND the event object's
namespace key can be computed; an add event never triggers a callback
(its handler is absent), and a key-extraction failure suppresses the
callback. -/
theorem callback_iff_update_or_delete_and_keyOk (e : Event) :
    triggersUpdatePeers e = true ↔
      ((e.kind = EventKind.update ∨ e.kind = EventKind.delete) ∧
        e.keyOk = true) := by
  obtain ⟨k, ok⟩ := e
  cases k <;> cases ok <;> decide

/-- C3: a malformed record is NOT skipped.  The type-assertion failure
at `src/kubernetes.go:139-142` is logged but the loop body then
dereferences the nil `endpoint` pointer (`endpoint.Subsets`): processing
a snapshot containing a malformed record panics (`updatePeers = none`),
the rebuild does not complete and the callback is never invoked
(`onUpdateCalls = []`) — fatal rather than non-fatal, contradicting the
intent evidenced by the error log. -/
theorem updatePeers_malformed_record_panics :
    updatePeers cfgEx [StoreObj.endpoints epA, StoreObj.other ("*v1.Pod")] = none ∧
    onUpdateCalls cfgEx [StoreObj.endpoints epA, StoreObj.other ("*v1.Pod")]
      { kind := EventKind.update, keyOk := true } = [] := by
  exact ⟨rfl, rfl⟩

/-- C10: a qualifying event produces exactly one callback invocation
even when the snapshot is empty at recomputation time: `updatePeers`
runs its loop over zero records and still calls `OnUpdate` once, with
the nil (empty) peer list. -/
theorem empty_snapshot_still_invokes_callback (conf : K8sPoolConfig)
    (e : Event) (h : triggersUpdatePeers e = true) :
    onUpdateCalls conf [] e = [[]] := by
  simp [onUpdateCalls, h, updatePeers]

/-- Witness for C10 at a well-keyed update event and `cfgEx`. -/
theorem empty_snapshot_still_invokes_callback_witness :
    triggersUpdatePeers { kind := EventKind.update, keyOk := true } = true ∧
    onUpdateCalls cfgEx [] { kind := EventKind.update, keyOk := true } = [[]] :=
  ⟨rfl, empty_snapshot_still_invokes_callback cfgEx
    { kind := EventKind.update, keyOk := true } rfl⟩

/-- C6 counterexample: the build is NOT deterministic across runs over
the identical snapshot.  The store's `List()` iterates a Go map with no
defined order, so the very same two records A and B can be presented as
`[B, A]`; that run produces the claimed peers in the opposite order,
refuting "always yields exactly
`[{10.0.0.1:8080, false}, {10.0.0.2:8080, true}]`" (the code never
sorts). -/
theorem build_order_not_canonical :
    List.Perm [StoreObj.endpoints epB, StoreObj.endpoints epA] storeAB ∧
    updatePeers cfgEx [StoreObj.endpoints epB, StoreObj.endpoints epA] =
      some [{ Address := "10.0.0.2:8080", IsOwner := true },
            { Address := "10.0.0.1:8080", IsOwner := false }] ∧
    ([{ Address := "10.0.0.2:8080", IsOwner := true },
       { Address := "10.0.0.1:8080", IsOwner := false }] : List PeerInfo) ≠
      [{ Address := "10.0.0.1:8080", IsOwner := false },
       { Address := "10.0.0.2:8080", IsOwner := true }] := by
  refine ⟨by decide, rfl, by decide⟩

/-- C6 as amended: the build is a deterministic pure function of the
sequence the store presents — over any two presentations that are
permutations of the same well-formed snapshot it yields complete lists
that agree up to permutation (the code does not sort, so order beyond
that is the store's unspecified map order) — and the presentation
`[A, B]` of the two-record snapshot with own address 10.0.0.2 and port
8080 yields exactly `[{10.0.0.1:8080, false}, {10.0.0.2:8080, true}]`. -/
theorem build_deterministic_up_to_perm :
    (∀ (conf : K8sPoolConfig) (s1 s2 : List StoreObj),
      s1.Perm s2 →
      (∀ o ∈ s1, ∃ ep, o = StoreObj.endpoints ep) →
      ∃ l1 l2, updatePeers conf s1 = some l1 ∧
        updatePeers conf s2 = some l2 ∧ l1.Perm l2) ∧
    updatePeers cfgEx storeAB =
      some [{ Address := "10.0.0.1:8080", IsOwner := false },
            { Address := "10.0.0.2:8080", IsOwner := true }] := by
  constructor
  · intro conf s1 s2 hperm hwf
    have hwf2 : ∀ o ∈ s2, ∃ ep, o = StoreObj.endpoints ep :=
      fun o ho => hwf o (hperm.mem_iff.2 ho)
    exact ⟨_, _, updatePeers_eq_flatMap conf s1 hwf,
      updatePeers_eq_flatMap conf s2 hwf2, hperm.flatMap_right _⟩
  · rfl

/-- Witness for C6's amended statement at the two presentations
`[A, B]` and `[B, A]` of the same snapshot. -/
theorem build_deterministic_up_to_perm_witness :
    storeAB.Perm [StoreObj.endpoints epB, StoreObj.endpoints epA] ∧
    (∃ l1 l2, updatePeers cfgEx storeAB = some l1 ∧
      updatePeers cfgEx [StoreObj.endpoints epB, StoreObj.endpoints epA] = some l2 ∧
      l1.Perm l2) :=
  ⟨by decide,
    build_deterministic_up_to_perm.1 cfgEx storeAB
      [StoreObj.endpoints epB, StoreObj.endpoints epA] (by decide) storeAB_wf⟩

/-- C4: `Close` is NOT idempotent.  Its body is exactly `close(e.done)`
(`src/kubernetes.go:159-161`); the first call closes the channel, and
any later call closes an already-closed channel, which panics in Go
("close of closed channel") — modelled by `none`. -/
theorem close_twice_panics :
    closePool
        { pending := [], doneClosed := false, workerExited := false,
          callbackCount := 0 } =
      some { pending := [], doneClosed := true, workerExited := false,
             callbackCount := 0 } ∧
    (closePool
        { pending := [], doneClosed := false, workerExited := false,
          callbackCount := 0 }).bind closePool = none :=
  ⟨rfl, rfl⟩

/-- The enabled-false configuration of C5's counterexample. -/
def cfgDisabled : K8sPoolConfig :=
  { PoolNamespace := "default", Selector := "app=gubernator",
    PodIP := "10.0.0.2", PodPort := "8080", Enabled := false }

/-- A cluster environment in which every construction stage succeeds. -/
def envOk : ClusterEnv :=
  { inClusterConfigOk := true, newForConfigOk := true, cachesSync := true }

/-- C5 counterexample: with `Enabled = false` construction is NOT a
no-op — `NewK8sPool` still attempts the in-cluster feed connection
(`rest.InClusterConfig()` is its first statement,
`src/kubernetes.go:57`) and runs the informer; the `Enabled` field is
never consulted anywhere in `src/kubernetes.go`. -/
theorem newK8sPool_disabled_not_noop :
    cfgDisabled.Enabled = false ∧
    InitAction.inClusterConfig ∈ (newK8sPool cfgDisabled envOk).2 ∧
    InitAction.startInformer ∈ (newK8sPool cfgDisabled envOk).2 := by
  refine ⟨rfl, by decide, by decide⟩

/-- C5 as amended: `NewK8sPool` never reads the configuration (in
particular not `Enabled`): its outcome and the actions it attempts are
identical for any two configurations, and for every configuration and
environment the first attempted action is the in-cluster feed
connection.  A disabled-is-no-op policy would have to be enforced by the
caller, outside this file. -/
theorem newK8sPool_ignores_enabled (conf : K8sPoolConfig) (env : ClusterEnv) :
    newK8sPool conf env = newK8sPool { conf with Enabled := true } env ∧
    (newK8sPool conf env).2.head? = some InitAction.inClusterConfig := by
  constructor
  · rfl
  · obtain ⟨a, b, c⟩ := env
    cases a <;> cases b <;> cases c <;> rfl

/-- C7 counterexample: if the feed never signals has-synced and nothing
closes `e.done`, the `WaitForCacheSync` call never returns — `start()`
blocks forever instead of returning the sync-timeout error.  No
wall-clock bound exists anywhere: `K8sPoolConfig` has no timeout field
and the stop channel passed at `src/kubernetes.go:127` is `e.done`,
which only `Close()` (or the failure branch itself) ever closes. -/
theorem start_blocks_without_close :
    startSyncOutcome none none = StartOutcome.blocksForever ∧
    StartOutcome.blocksForever ≠ StartOutcome.syncTimeoutError :=
  ⟨rfl, by decide⟩

/-- C7 as amended: `Start` blocks until the feed signals has-synced and
returns the `"timed out waiting for caches to sync"` error exactly when
the `done` channel is closed before that signal arrives; when the feed
never signals and `done` is never closed it blocks forever — the wait is
bounded by the stop channel, not by any configured timeout. -/
theorem start_sync_outcome :
    (∀ t, startSyncOutcome none (some t) = StartOutcome.syncTimeoutError) ∧
    (∀ s, startSyncOutcome (some s) none = StartOutcome.ok) ∧
    startSyncOutcome none none = StartOutcome.blocksForever :=
  ⟨fun _ => rfl, fun _ => rfl, rfl⟩

/-- C8: `Close` does NOT wait for the worker and the callback can fire
after it returns.  `Close`'s whole body is `close(e.done)`: from a state
with a pending qualifying event and the worker still running, `closePool`
returns with the worker not exited, after which one worker step delivers
the pending event and performs one more `OnUpdate` invocation. -/
theorem close_returns_before_worker_exit :
    ∃ s1 s2 : EngineState,
      closePool
          { pending := [{ kind := EventKind.update, keyOk := true }],
            doneClosed := false, workerExited := false, callbackCount := 0 } =
        some s1 ∧
      s1.workerExited = false ∧
      WorkerStep s1 s2 ∧
      s2.callbackCount = 1 := by
  refine ⟨_, _, rfl, rfl,
    WorkerStep.deliver _ { kind := EventKind.update, keyOk := true } [] rfl rfl, rfl⟩

end Gubernator

namespace Metrics

/-- Folding the stat-branch over a list of incoming stats: a method that
already had an entry keeps it untouched; otherwise the entry is the
FIRST stat of the list for that method, stored with `Called = 1`. -/
theorem foldl_handleStat_apply (stats : List RequestStats) :
    ∀ (m : StatMap) (method : String),
      List.foldl handleStat m stats method =
        match m method with
        | some v => some v
        | none =>
            (stats.find? fun s => s.Method == method).map
              fun s => { s with Called := 1 } := by
  induction stats with
  | nil =>
      intro m method
      cases h : m method <;> simp [h]
  | cons stat rest ih =>
      intro m method
      rw [List.foldl_cons]
      cases hm : m stat.Method with
      | some item =>
          have h1 : handleStat m stat = m := by
            simp [handleStat, hm]
          rw [h1, ih m method]
          cases hmm : m method with
          | some v => rfl
          | none =>
              have hne : (stat.Method == method) = false := by
                apply beq_eq_false_iff_ne.2
                intro he
                rw [he, hmm] at hm
                cases hm
              simp [List.find?_cons, hne]
      | none =>
          have h1 : handleStat m stat =
              fun k =>
                if k = stat.Method then some { stat with Called := 1 }
                else m k := by
            simp [handleStat, hm]
          rw [h1, ih _ method]
          by_cases hmeq : method = stat.Method
          · subst hmeq
            simp [hm, List.find?_cons]
          · have hne : (stat.Method == method) = false := by
              apply beq_eq_false_iff_ne.2
              exact fun he => hmeq he.symm
            simp [hmeq, List.find?_cons, hne]

/-- C9: in the aggregation loop of `StatsdMetrics.Start`, a stat whose
method already has an entry leaves the map completely unchanged — the
incremented `Failed`/`Called` counts are computed on a map-value copy
that is never stored back — and consequently, for each method, the
counters emitted at the next tick are determined by the first stat of
the interval alone: gauge = its duration, total = 1 (the `Called` the
first stat was stored with), failed = its failure flag. -/
theorem aggregation_first_stat_wins :
    (∀ (m : StatMap) (stat : RequestStats),
        (m stat.Method).isSome = true → handleStat m stat = m) ∧
    (∀ (stats : List RequestStats) (method : String),
        emitForMethod (List.foldl handleStat StatMap.empty stats) method =
          (stats.find? fun s => s.Method == method).map fun s =>
            { gaugeDuration := s.Duration, incTotal := 1,
              incFailed := s.Failed }) := by
  constructor
  · intro m stat h
    cases hm : m stat.Method with
    | none => rw [hm] at h; cases h
    | some item => simp [handleStat, hm]
  · intro stats method
    unfold emitForMethod
    rw [foldl_handleStat_apply]
    cases h : stats.find? (fun s => s.Method == method) <;>
      simp [h, StatMap.empty]

/-- A one-entry aggregation map used by the C9 witness. -/
def mapA : StatMap := fun k =>
  if k = "a" then
    some { Method := "a", Duration := 2, Failed := 0, Called := 1 }
  else none

/-- A later stat for the already-present method of `mapA`. -/
def statA2 : RequestStats :=
  { Method := "a", Duration := 7, Failed := 1, Called := 0 }

/-- Two stats for the same method in one interval; only the first may
determine the tick's counters. -/
def statsTwo : List RequestStats :=
  [{ Method := "m", Duration := 5, Failed := 1, Called := 0 },
   { Method := "m", Duration := 3, Failed := 0, Called := 0 }]

/-- Witness for C9: the second stat for method "a" leaves `mapA`
unchanged, and after two stats for method "m" the tick emits
duration 5, total 1 and failed 1 — all taken from the first stat. -/
theorem aggregation_first_stat_wins_witness :
    (mapA statA2.Method).isSome = true ∧
    handleStat mapA statA2 = mapA ∧
    emitForMethod (List.foldl handleStat StatMap.empty statsTwo) ("m") =
      some { gaugeDuration := 5, incTotal := 1, incFailed := 1 } := by
  refine ⟨rfl, aggregation_first_stat_wins.1 mapA statA2 rfl, ?_⟩
  rw [aggregation_first_stat_wins.2 statsTwo ("m")]
  rfl

end Metrics
